import Mathlib

/-!
Verification development for the CareerCraft backend (src/server/index.ts):
an Express + MongoDB + OpenAI service. Each HTTP handler is embedded as a
pure Lean function over an explicit state (the user document or the users
collection), with external effects (the provider completion call, JSON.parse,
bcrypt, jwt signing, zod error flattening) passed in as parameters.
Timestamps (JS Date values) are modelled as natural numbers.
-/

/-- A model of JSON values, used for request and response bodies and for the
provider output that the zod schemas validate. Objects are association lists
with first-match lookup (JS object keys are unique). -/
inductive Json where
  | null : Json
  | bool (b : Bool) : Json
  | num (n : Int) : Json
  | str (s : String) : Json
  | arr (xs : List Json) : Json
  | obj (fields : List (String × Json)) : Json
deriving Repr

/-- First-match field lookup on a JSON object, none on non-objects. -/
def Json.getField : Json → String → Option Json
  | .obj fields, k => fields.lookup k
  | _, _ => none

/-- education levels and demand levels are plain strings at runtime
(the TS union types are erased); the zod enums constrain what the
validated endpoints accept, not what the store can hold. -/
structure UserProfile where
  fullName : String
  age : Nat
  educationLevel : String
  interests : List String
deriving Repr, DecidableEq

/-- Psychometric submission: the answers record is an association list
(question id, chosen answer id) plus the submission timestamp. -/
structure PsychometricSubmission where
  answers : List (String × String)
  submittedAt : Nat
deriving Repr, DecidableEq

structure CourseRec where
  course : String
  reason : String
deriving Repr, DecidableEq

structure AiAnalyzeResult where
  primaryDomain : String
  recommendedCourses : List CourseRec
deriving Repr, DecidableEq

structure AiPortfolio where
  strengthSummary : String
  recommendedSkills : List String
  learningFocusAreas : List String
  suggestedProjects : List String
deriving Repr, DecidableEq

structure AiRoadmapStage where
  stage : String
  whatToStudy : List String
  skillsToLearn : List String
  certifications : List String
  projects : List String
  internships : List String
deriving Repr, DecidableEq

structure AiRoadmap where
  primaryDomain : String
  stages : List AiRoadmapStage
  notes : String
deriving Repr, DecidableEq

/-- A cached AI-bundle slot: validated data, creation time, model id. -/
structure AiSlot (α : Type) where
  data : α
  createdAt : Nat
  model : String
deriving Repr, DecidableEq

structure AiBundle where
  analysis : Option AiAnalyzeResult
  portfolio : Option (AiSlot AiPortfolio)
  roadmap : Option (AiSlot AiRoadmap)
deriving Repr, DecidableEq

/-- A user document, as stored in the users collection. -/
structure UserDoc where
  id : String
  email : String
  passwordHash : String
  createdAt : Nat
  updatedAt : Nat
  profile : Option UserProfile
  psychometric : Option PsychometricSubmission
  ai : Option AiBundle
deriving Repr, DecidableEq

def emptyAiBundle : AiBundle := ⟨none, none, none⟩

def UserDoc.aiAnalysis (u : UserDoc) : Option AiAnalyzeResult :=
  u.ai.bind AiBundle.analysis

def UserDoc.aiPortfolio (u : UserDoc) : Option (AiSlot AiPortfolio) :=
  u.ai.bind AiBundle.portfolio

def UserDoc.aiRoadmap (u : UserDoc) : Option (AiSlot AiRoadmap) :=
  u.ai.bind AiBundle.roadmap

/-- The Mongo update with dotted path "ai.portfolio" creates the
intermediate ai object when missing and replaces only the portfolio slot. -/
def UserDoc.setAiPortfolio (u : UserDoc) (slot : AiSlot AiPortfolio) (now : Nat) : UserDoc :=
  { u with ai := some { u.ai.getD emptyAiBundle with portfolio := some slot },
           updatedAt := now }

def UserDoc.setAiRoadmap (u : UserDoc) (slot : AiSlot AiRoadmap) (now : Nat) : UserDoc :=
  { u with ai := some { u.ai.getD emptyAiBundle with roadmap := some slot },
           updatedAt := now }

/-- JS String.trim: drop whitespace from both ends (kernel-reducible
char-list implementation of the library trim). -/
def strTrim (s : String) : String :=
  ⟨((s.data.dropWhile Char.isWhitespace).reverse.dropWhile Char.isWhitespace).reverse⟩

/-- JS String.toLowerCase (kernel-reducible char-list implementation). -/
def strToLower (s : String) : String := ⟨s.data.map Char.toLower⟩

/-- qString from the source: a string query value is trimmed; an empty
trimmed value (or a non-string) becomes undefined. -/
def qString (v : Option String) : Option String :=
  match v with
  | some s => if strTrim s = "" then none else some (strTrim s)
  | none => none

/-- normalizeTag from the source: trim then lowercase. -/
def normalizeTag (s : String) : String := strToLower (strTrim s)

def AI_MODEL : String := "gpt-4-turbo-preview"

/-- JSON encoding of a string list. -/
def Json.ofStrList (xs : List String) : Json := .arr (xs.map .str)

def UserProfile.toJson (p : UserProfile) : Json :=
  .obj [("fullName", .str p.fullName), ("age", .num p.age),
        ("educationLevel", .str p.educationLevel),
        ("interests", Json.ofStrList p.interests)]

def AiPortfolio.toJson (p : AiPortfolio) : Json :=
  .obj [("strengthSummary", .str p.strengthSummary),
        ("recommendedSkills", Json.ofStrList p.recommendedSkills),
        ("learningFocusAreas", Json.ofStrList p.learningFocusAreas),
        ("suggestedProjects", Json.ofStrList p.suggestedProjects)]

def AiRoadmapStage.toJson (s : AiRoadmapStage) : Json :=
  .obj [("stage", .str s.stage),
        ("whatToStudy", Json.ofStrList s.whatToStudy),
        ("skillsToLearn", Json.ofStrList s.skillsToLearn),
        ("certifications", Json.ofStrList s.certifications),
        ("projects", Json.ofStrList s.projects),
        ("internships", Json.ofStrList s.internships)]

def AiRoadmap.toJson (r : AiRoadmap) : Json :=
  .obj [("primaryDomain", .str r.primaryDomain),
        ("stages", .arr (r.stages.map AiRoadmapStage.toJson)),
        ("notes", .str r.notes)]

/-- Body shape shared by every error response. -/
def errJson (msg : String) : Json := .obj [("error", .str msg)]

/-! ## zod output schemas (aiPortfolioSchema / aiRoadmapSchema) -/

/-- z.string().min(1). -/
def asNonEmptyString : Json → Option String
  | .str s => if 1 ≤ s.length then some s else none
  | _ => none

/-- Element-wise Option traversal of a list, failing when any element fails
(zod array semantics). -/
def optionMapList (f : Json → Option α) : List Json → Option (List α)
  | [] => some []
  | x :: xs =>
    match f x, optionMapList f xs with
    | some a, some as => some (a :: as)
    | _, _ => none

/-- z.array(z.string().min(1)). -/
def asStringList : Json → Option (List String)
  | .arr xs => optionMapList asNonEmptyString xs
  | _ => none

/-- z.array(z.string().min(1)).min(lo).max(hi). -/
def asStrListBounded (lo hi : Nat) (j : Json) : Option (List String) :=
  (asStringList j).bind fun xs =>
    if lo ≤ xs.length ∧ xs.length ≤ hi then some xs else none

/-- aiPortfolioSchema from the source: strengthSummary non-empty,
recommendedSkills 3..12, learningFocusAreas 3..12, suggestedProjects 2..10,
each element a non-empty string. -/
def aiPortfolioValidate (j : Json) : Option AiPortfolio := do
  let ss ← (j.getField "strengthSummary").bind asNonEmptyString
  let rs ← (j.getField "recommendedSkills").bind (asStrListBounded 3 12)
  let lf ← (j.getField "learningFocusAreas").bind (asStrListBounded 3 12)
  let sp ← (j.getField "suggestedProjects").bind (asStrListBounded 2 10)
  pure ⟨ss, rs, lf, sp⟩

/-- the per-stage object schema inside aiRoadmapSchema. -/
def aiRoadmapStageValidate (j : Json) : Option AiRoadmapStage := do
  let st ← (j.getField "stage").bind asNonEmptyString
  let ws ← (j.getField "whatToStudy").bind (asStrListBounded 1 10)
  let sk ← (j.getField "skillsToLearn").bind (asStrListBounded 1 10)
  let ce ← (j.getField "certifications").bind (asStrListBounded 0 10)
  let pr ← (j.getField "projects").bind (asStrListBounded 1 10)
  let it ← (j.getField "internships").bind (asStrListBounded 0 10)
  pure ⟨st, ws, sk, ce, pr, it⟩

/-- aiRoadmapSchema from the source: primaryDomain non-empty, 3..8 stages
each validated by the stage schema, notes non-empty. -/
def aiRoadmapValidate (j : Json) : Option AiRoadmap := do
  let pd ← (j.getField "primaryDomain").bind asNonEmptyString
  let stagesJson ← match j.getField "stages" with
                   | some (.arr xs) => some xs
                   | _ => none
  let stages ← optionMapList aiRoadmapStageValidate stagesJson
  if 3 ≤ stages.length ∧ stages.length ≤ 8 then
    let notes ← (j.getField "notes").bind asNonEmptyString
    pure ⟨pd, stages, notes⟩
  else none

/-! ## The AI endpoints (GET /ai/portfolio, GET /ai/career-roadmap) -/

/-- Outcome of the single provider completion call: either the call throws
(transport or provider error with a message), or it returns with an optional
message content string. -/
inductive ProviderOutcome where
  | error (msg : String) : ProviderOutcome
  | ok (content : Option String) : ProviderOutcome
deriving Repr, DecidableEq

/-- External functions the AI handlers depend on: JSON.parse (none models a
parse exception) and the zod error flattening used in the schema-failure
details field. -/
structure AiExternals where
  parse : String → Option Json
  flatten : Json → Json

/-- Result of one AI endpoint invocation: HTTP status, JSON body, the user
document after the request (none when the id matched no user), and the
number of provider completion calls made. -/
structure AiResult where
  status : Nat
  body : Json
  userAfter : Option UserDoc
  providerCalls : Nat
deriving Repr

/-- GET /ai/portfolio. `refreshQ` is the raw refresh query value, `apiKey`
the OPENAI_API_KEY environment value, `provider` the outcome the single
completion call would have, `now` the generation timestamp, `user` the
result of looking the authenticated user id up in the collection. -/
def aiPortfolioHandler (ext : AiExternals) (refreshQ : Option String)
    (apiKey : Option String) (provider : ProviderOutcome) (now : Nat)
    (user : Option UserDoc) : AiResult :=
  let refresh : Bool := qString refreshQ == some "1"
  match user with
  | none => ⟨404, errJson "User not found", none, 0⟩
  | some u =>
    match (if refresh then none else u.aiPortfolio) with
    | some slot =>
      ⟨200, .obj [("model", .str slot.model), ("createdAt", .num slot.createdAt),
                  ("portfolio", slot.data.toJson)], some u, 0⟩
    | none =>
      match u.profile with
      | none => ⟨400, errJson "Profile is missing. Save /user/profile first.", some u, 0⟩
      | some _ =>
      match u.psychometric with
      | none => ⟨400, errJson "Psychometric answers are missing. Save /user/psychometric first.", some u, 0⟩
      | some _ =>
      match u.aiAnalysis with
      | none => ⟨400, errJson "AI analysis is missing. Run POST /ai/analyze first.", some u, 0⟩
      | some _ =>
      match apiKey with
      | none => ⟨500, errJson "OpenAI API key not configured", some u, 0⟩
      | some _ =>
      match provider with
      | .error msg => ⟨502, errJson msg, some u, 1⟩
      | .ok none => ⟨502, errJson "AI returned an empty response", some u, 1⟩
      | .ok (some content) =>
        match ext.parse content with
        | none => ⟨502, .obj [("error", .str "AI returned non-JSON output"),
                              ("raw", .str content)], some u, 1⟩
        | some j =>
          match aiPortfolioValidate j with
          | none => ⟨502, .obj [("error", .str "AI output did not match expected schema"),
                                ("details", ext.flatten j)], some u, 1⟩
          | some data =>
            ⟨200, .obj [("model", .str AI_MODEL), ("createdAt", .num now),
                        ("portfolio", data.toJson)],
             some (u.setAiPortfolio ⟨data, now, AI_MODEL⟩ now), 1⟩

/-- GET /ai/career-roadmap; identical control flow with the roadmap slot and
schema. -/
def aiRoadmapHandler (ext : AiExternals) (refreshQ : Option String)
    (apiKey : Option String) (provider : ProviderOutcome) (now : Nat)
    (user : Option UserDoc) : AiResult :=
  let refresh : Bool := qString refreshQ == some "1"
  match user with
  | none => ⟨404, errJson "User not found", none, 0⟩
  | some u =>
    match (if refresh then none else u.aiRoadmap) with
    | some slot =>
      ⟨200, .obj [("model", .str slot.model), ("createdAt", .num slot.createdAt),
                  ("roadmap", slot.data.toJson)], some u, 0⟩
    | none =>
      match u.profile with
      | none => ⟨400, errJson "Profile is missing. Save /user/profile first.", some u, 0⟩
      | some _ =>
      match u.psychometric with
      | none => ⟨400, errJson "Psychometric answers are missing. Save /user/psychometric first.", some u, 0⟩
      | some _ =>
      match u.aiAnalysis with
      | none => ⟨400, errJson "AI analysis is missing. Run POST /ai/analyze first.", some u, 0⟩
      | some _ =>
      match apiKey with
      | none => ⟨500, errJson "OpenAI API key not configured", some u, 0⟩
      | some _ =>
      match provider with
      | .error msg => ⟨502, errJson msg, some u, 1⟩
      | .ok none => ⟨502, errJson "AI returned an empty response", some u, 1⟩
      | .ok (some content) =>
        match ext.parse content with
        | none => ⟨502, .obj [("error", .str "AI returned non-JSON output"),
                              ("raw", .str content)], some u, 1⟩
        | some j =>
          match aiRoadmapValidate j with
          | none => ⟨502, .obj [("error", .str "AI output did not match expected schema"),
                                ("details", ext.flatten j)], some u, 1⟩
          | some data =>
            ⟨200, .obj [("model", .str AI_MODEL), ("createdAt", .num now),
                        ("roadmap", data.toJson)],
             some (u.setAiRoadmap ⟨data, now, AI_MODEL⟩ now), 1⟩

/-! ## Auth endpoints (POST /auth/signup, POST /auth/login) -/

/-- The only insert failure in scope: the unique index on email rejects a
duplicate (the driver surfaces it as an E11000 duplicate key error, which the
handler detects by message). -/
inductive DbErr where
  | dupKey : DbErr
deriving Repr, DecidableEq

/-- insertOne into the users collection under the unique email index:
fails with the duplicate key error when a stored document has the same
email, otherwise appends in store order. -/
def insertUser (store : List UserDoc) (u : UserDoc) : Except DbErr (List UserDoc) :=
  if store.any (fun v => v.email == u.email) then .error .dupKey
  else .ok (store ++ [u])

/-- External functions of the auth endpoints: bcrypt.hash (with its fixed
cost), jwt signing over (user id, email), bcrypt.compare, and the zod
flattening of an invalid request body. -/
structure AuthExternals where
  hash : String → String
  sign : String → String → String
  verify : String → String → Bool
  invalidDetails : Json

structure StoreResult where
  status : Nat
  body : Json
  store : List UserDoc
deriving Repr

/-- POST /auth/signup. `body` is the zod-validated pair (email, password)
(none when signupSchema rejected the request body: the email format check is
the external zod validator). `newId` is the generated ObjectId hex. -/
def signupHandler (ext : AuthExternals) (body : Option (String × String))
    (newId : String) (now : Nat) (store : List UserDoc) : StoreResult :=
  match body with
  | none => ⟨400, .obj [("error", .str "Invalid input"), ("details", ext.invalidDetails)], store⟩
  | some (email, password) =>
    let passwordHash := ext.hash password
    let doc : UserDoc :=
      { id := newId, email := strToLower email, passwordHash := passwordHash,
        createdAt := now, updatedAt := now,
        profile := none, psychometric := none, ai := none }
    match insertUser store doc with
    | .ok newStore =>
      ⟨201, .obj [("token", .str (ext.sign newId (strToLower email))),
                  ("user", .obj [("id", .str newId), ("email", .str (strToLower email))])],
       newStore⟩
    | .error .dupKey => ⟨409, errJson "Email already exists", store⟩

/-- POST /auth/login. Looks up the first stored user with the normalized
email, then compares the password with the stored hash; the store is never
written. -/
def loginHandler (ext : AuthExternals) (body : Option (String × String))
    (store : List UserDoc) : Nat × Json :=
  match body with
  | none => (400, .obj [("error", .str "Invalid input"), ("details", ext.invalidDetails)])
  | some (email, password) =>
    match store.find? (fun u => u.email == strToLower email) with
    | none => (401, errJson "Invalid email or password")
    | some u =>
      if ext.verify password u.passwordHash then
        (200, .obj [("token", .str (ext.sign u.id u.email)),
                    ("user", .obj [("id", .str u.id), ("email", .str u.email)])])
      else (401, errJson "Invalid email or password")

/-! ## GET /me -/

/-- GET /me: the user is fetched with passwordHash projected out; the body
exposes id, email, the profile (or null) and only the psychometric
submission timestamp (or null). -/
def meHandler (user : Option UserDoc) : Nat × Json :=
  match user with
  | none => (404, errJson "User not found")
  | some u =>
    (200, .obj [("user", .obj
      [("id", .str u.id), ("email", .str u.email),
       ("profile", (u.profile.map UserProfile.toJson).getD .null),
       ("psychometric",
         match u.psychometric with
         | some p => .obj [("submittedAt", .num p.submittedAt)]
         | none => .null)])])

/-! ## POST /user/psychometric -/

/-- psychometricSchema from the source: z.record(z.string().min(1)) with a
superRefine requiring 8..10 entries. The answers record is the association
list of the request body object. -/
def psychometricValid (answers : List (String × String)) : Prop :=
  (∀ kv ∈ answers, 1 ≤ kv.2.length) ∧
  8 ≤ answers.length ∧ answers.length ≤ 10

instance (answers : List (String × String)) : Decidable (psychometricValid answers) := by
  unfold psychometricValid; infer_instance

/-- POST /user/psychometric. `answers` is the answers object of the request
body; validation failure returns 400 before any write, success stores the
submission wholesale with the submission timestamp. -/
def psychometricHandler (invalidDetails : Json) (answers : List (String × String))
    (now : Nat) (user : Option UserDoc) : AiResult :=
  if psychometricValid answers then
    match user with
    | none => ⟨404, errJson "User not found", none, 0⟩
    | some u =>
      ⟨200, .obj [("ok", .bool true)],
       some { u with psychometric := some ⟨answers, now⟩, updatedAt := now }, 0⟩
  else
    ⟨400, .obj [("error", .str "Invalid input"), ("details", invalidDetails)], user, 0⟩

/-! ## Catalog endpoints (GET /ai/job-roles, GET /scholarships) -/

structure JobRoleDoc where
  id : String
  title : String
  domain : String
  salaryMinInr : Int
  salaryMaxInr : Int
  requiredSkills : List String
  demandLevel : String
  courseTags : Option (List String)
deriving Repr, DecidableEq

/-- amountInr is an optional range object with optional min and max. -/
structure AmountRange where
  min : Option Int
  max : Option Int
deriving Repr, DecidableEq

structure ScholarshipDoc where
  id : String
  name : String
  url : String
  courseTags : List String
  category : Option String
  academicLevel : String
  deadline : Option String
  amountInr : Option AmountRange
  eligibility : Option String
deriving Repr, DecidableEq

/-- The effective domain filter of /ai/job-roles: the JS truthiness guard
`if (domain)` leaves the filter unset for an empty-string domain. -/
def effDomainFilter (explicitDomain : Option String) (analysis : Option AiAnalyzeResult) :
    Option String :=
  match explicitDomain.orElse (fun _ => analysis.map AiAnalyzeResult.primaryDomain) with
  | some d => if d = "" then none else some d
  | none => none

/-- The effective course-tag list of /ai/job-roles: the explicit course (if
any) followed by every analysis course name, empty strings dropped by the
filter(Boolean), each normalized (trim + lowercase). -/
def effCourseTags (explicitCourse : Option String) (analysis : Option AiAnalyzeResult) :
    List String :=
  ((match explicitCourse with | some c => [c] | none => []) ++
    (analysis.map (fun a => a.recommendedCourses.map CourseRec.course)).getD [])
    |>.filter (fun s => s ≠ "") |>.map normalizeTag

/-- Mongo match semantics of the job-roles filter: exact domain equality when
the domain filter is set, AND membership of some stored course tag in the tag
list when that list is non-empty (a document without courseTags never matches
the $in clause). -/
def roleMatches (domainFilter : Option String) (tags : List String) (r : JobRoleDoc) : Bool :=
  (match domainFilter with
   | some d => r.domain == d
   | none => true) &&
  (match tags with
   | [] => true
   | _ => (r.courseTags.getD []).any (fun t => tags.contains t))

def jobRoleToJson (r : JobRoleDoc) : Json :=
  .obj [("id", .str r.id), ("title", .str r.title), ("domain", .str r.domain),
        ("salaryRangeInr", .obj [("min", .num r.salaryMinInr), ("max", .num r.salaryMaxInr)]),
        ("requiredSkills", Json.ofStrList r.requiredSkills),
        ("demandLevel", .str r.demandLevel)]

/-- GET /ai/job-roles. `roles` is the job_roles collection in store order;
find(filter).limit(30) is filtering in store order capped at 30. -/
def jobRolesHandler (domainQ courseQ : Option String) (user : Option UserDoc)
    (roles : List JobRoleDoc) : Nat × Json :=
  let explicitDomain := qString domainQ
  let explicitCourse := qString courseQ
  match user with
  | none => (404, errJson "User not found")
  | some u =>
    let analysis := u.aiAnalysis
    if analysis = none ∧ explicitDomain = none ∧ explicitCourse = none then
      (400, errJson "AI analysis missing. Run POST /ai/analyze or pass ?domain= / ?course=.")
    else
      let domain := explicitDomain.orElse (fun _ => analysis.map AiAnalyzeResult.primaryDomain)
      let tags := effCourseTags explicitCourse analysis
      let out := (roles.filter (roleMatches (effDomainFilter explicitDomain analysis) tags)).take 30
      (200, .obj [("domain", match domain with | some d => .str d | none => .null),
                  ("count", .num out.length),
                  ("jobRoles", .arr (out.map jobRoleToJson))])

/-- The effective course of /scholarships: explicit parameter, else the first
recommended course of the cached analysis; the JS truthiness guard
`if (course)` leaves the filter unset for an empty string. -/
def effScholarCourse (explicitCourse : Option String) (analysis : Option AiAnalyzeResult) :
    Option String :=
  explicitCourse.orElse (fun _ =>
    analysis.bind (fun a => (a.recommendedCourses.head?).map CourseRec.course))

/-- Mongo match semantics of the scholarships filter: exact academicLevel
equality, exact category equality when a category was supplied (a document
without category never matches), and membership of the normalized course among
the stored courseTags when a course filter is set. -/
def scholarshipMatches (lvl : String) (categoryFilter : Option String)
    (courseFilter : Option String) (s : ScholarshipDoc) : Bool :=
  (s.academicLevel == lvl) &&
  (match categoryFilter with
   | some c => s.category == some c
   | none => true) &&
  (match courseFilter with
   | some c => s.courseTags.contains c
   | none => true)

/-- JSON serialization of an amount range: undefined sub-fields are omitted
by JSON.stringify. -/
def AmountRange.toJson (a : AmountRange) : Json :=
  .obj ((match a.min with | some v => [("min", Json.num v)] | none => []) ++
        (match a.max with | some v => [("max", Json.num v)] | none => []))

def scholarshipToJson (s : ScholarshipDoc) : Json :=
  .obj [("id", .str s.id), ("name", .str s.name), ("url", .str s.url),
        ("category", (s.category.map Json.str).getD .null),
        ("academicLevel", .str s.academicLevel),
        ("deadline", (s.deadline.map Json.str).getD .null),
        ("amountInr", (s.amountInr.map AmountRange.toJson).getD .null),
        ("eligibility", (s.eligibility.map Json.str).getD .null)]

/-- The effective academic level of /scholarships: the explicit parameter,
else the Profile education level. -/
def effAcademicLevel (explicitLevel : Option String) (u : UserDoc) : Option String :=
  explicitLevel.orElse (fun _ => u.profile.map UserProfile.educationLevel)

/-- The course filter of /scholarships applies the JS truthiness guard
`if (course)` and normalizes the course to a single lowercase tag. -/
def scholarCourseFilter (course : Option String) : Option String :=
  match course with
  | some c => if c = "" then none else some (normalizeTag c)
  | none => none

/-- GET /scholarships. `items` is the scholarships collection in store order;
find(filter).limit(50) is filtering in store order capped at 50. -/
def scholarshipsHandler (courseQ categoryQ levelQ : Option String)
    (user : Option UserDoc) (items : List ScholarshipDoc) : Nat × Json :=
  let explicitCourse := qString courseQ
  let explicitCategory := qString categoryQ
  let explicitLevel := qString levelQ
  match user with
  | none => (404, errJson "User not found")
  | some u =>
    let analysis := u.aiAnalysis
    let course := effScholarCourse explicitCourse analysis
    match effAcademicLevel explicitLevel u with
    | none => (400, errJson "Academic level missing. Save /user/profile or pass ?academicLevel=.")
    | some lvl =>
      if lvl = "" then
        (400, errJson "Academic level missing. Save /user/profile or pass ?academicLevel=.")
      else
        let out := (items.filter (scholarshipMatches lvl explicitCategory
          (scholarCourseFilter course))).take 50
        (200, .obj [("filters", .obj [("course", (course.map Json.str).getD .null),
                                      ("category", (explicitCategory.map Json.str).getD .null),
                                      ("academicLevel", .str lvl)]),
                    ("count", .num out.length),
                    ("scholarships", .arr (out.map scholarshipToJson))])

/-! ## Response-body abbreviations and shared lemmas -/

def portfolioRespBody (model : String) (createdAt : Nat) (p : AiPortfolio) : Json :=
  .obj [("model", .str model), ("createdAt", .num createdAt), ("portfolio", p.toJson)]

def roadmapRespBody (model : String) (createdAt : Nat) (r : AiRoadmap) : Json :=
  .obj [("model", .str model), ("createdAt", .num createdAt), ("roadmap", r.toJson)]

theorem qString_one : qString (some "1") = some "1" := by decide

/-- A generation attempt (refresh requested, or the slot empty) bypasses the
cached-value branch. -/
theorem cache_skip {α : Type} {o : Option α} {q : Option String}
    (h : qString q = some "1" ∨ o = none) :
    (if qString q = some "1" then none else o) = none := by
  rcases h with h | h
  · simp [h]
  · split <;> simp [h]

/-! ## Sample data used by the witnesses -/

def sampleProfile : UserProfile := ⟨"Asha Rao", 19, "Undergraduate", ["coding"]⟩

def sampleAnswers : List (String × String) :=
  [("q1", "a"), ("q2", "b"), ("q3", "c"), ("q4", "d"),
   ("q5", "a"), ("q6", "b"), ("q7", "c"), ("q8", "d")]

def samplePsy : PsychometricSubmission := ⟨sampleAnswers, 5⟩

def sampleAnalysis : AiAnalyzeResult :=
  ⟨"Engineering", [⟨"Computer Science", "fit"⟩]⟩

def samplePortfolio : AiPortfolio :=
  ⟨"Strong logical thinking.", ["python", "sql", "git"],
   ["data structures", "databases", "apis"], ["todo app", "blog"]⟩

def sampleStage : AiRoadmapStage :=
  ⟨"0-3 months", ["math"], ["python"], [], ["todo app"], []⟩

def sampleRoadmap : AiRoadmap :=
  ⟨"Engineering", [sampleStage, sampleStage, sampleStage], "keep going"⟩

def samplePSlot : AiSlot AiPortfolio := ⟨samplePortfolio, 100, "m-old"⟩

def sampleRSlot : AiSlot AiRoadmap := ⟨sampleRoadmap, 100, "m-old"⟩

/-- A user with everything: profile, psychometric, analysis, both slots. -/
def sampleUserFull : UserDoc :=
  ⟨"u1", "a@x.com", "hash1", 0, 0, some sampleProfile, some samplePsy,
   some ⟨some sampleAnalysis, some samplePSlot, some sampleRSlot⟩⟩

/-- A fresh user: no profile, no psychometric, no AI bundle. -/
def userBare : UserDoc :=
  ⟨"u2", "b@x.com", "hash2", 0, 0, none, none, none⟩

/-- Profile saved, psychometric not yet. -/
def userProfOnly : UserDoc :=
  ⟨"u3", "c@x.com", "hash3", 0, 0, some sampleProfile, none, none⟩

/-- Profile and psychometric saved, no analysis. -/
def userProfPsy : UserDoc :=
  ⟨"u4", "d@x.com", "hash4", 0, 0, some sampleProfile, some samplePsy, none⟩

/-- All generation prerequisites, but no cached portfolio or roadmap slot. -/
def userReady : UserDoc :=
  ⟨"u5", "e@x.com", "hash5", 0, 0, some sampleProfile, some samplePsy,
   some ⟨some sampleAnalysis, none, none⟩⟩

/-- Provider stub: content "P" parses to the sample portfolio JSON, anything
else to the sample roadmap JSON. -/
def sampleExt : AiExternals :=
  ⟨fun s => if s = "P" then some samplePortfolio.toJson else some sampleRoadmap.toJson,
   fun _ => Json.null⟩

/-! ## Claim C1 -/

/-- C1: with a cached portfolio (resp. roadmap) slot, a non-refresh read of
/ai/portfolio (resp. /ai/career-roadmap) returns exactly the cached data,
model and createdAt with no provider call and no state change, so two
consecutive non-refresh reads return identical payloads; with refresh=1 the
cache is bypassed regardless of its age: whenever the prerequisites hold the
provider is called, and a successfully validated response overwrites the
slot. -/
theorem C1_cache_read_and_refresh (ext : AiExternals) (key : Option String)
    (prov : ProviderOutcome) (now now2 : Nat) (u : UserDoc)
    (pslot : AiSlot AiPortfolio) (rslot : AiSlot AiRoadmap)
    (p : UserProfile) (ps : PsychometricSubmission) (an : AiAnalyzeResult) (k : String)
    (c cr : String) (j jr : Json) (data : AiPortfolio) (datar : AiRoadmap)
    (hp : u.aiPortfolio = some pslot) (hr : u.aiRoadmap = some rslot)
    (hpr : u.profile = some p) (hps : u.psychometric = some ps)
    (han : u.aiAnalysis = some an) (hk : key = some k)
    (hparse : ext.parse c = some j) (hval : aiPortfolioValidate j = some data)
    (hparser : ext.parse cr = some jr) (hvalr : aiRoadmapValidate jr = some datar) :
    aiPortfolioHandler ext none key prov now (some u) =
      ⟨200, portfolioRespBody pslot.model pslot.createdAt pslot.data, some u, 0⟩ ∧
    aiRoadmapHandler ext none key prov now (some u) =
      ⟨200, roadmapRespBody rslot.model rslot.createdAt rslot.data, some u, 0⟩ ∧
    aiPortfolioHandler ext none key prov now2
        ((aiPortfolioHandler ext none key prov now (some u)).userAfter) =
      aiPortfolioHandler ext none key prov now (some u) ∧
    (aiPortfolioHandler ext (some "1") key prov now (some u)).providerCalls = 1 ∧
    (aiRoadmapHandler ext (some "1") key prov now (some u)).providerCalls = 1 ∧
    aiPortfolioHandler ext (some "1") key (.ok (some c)) now (some u) =
      ⟨200, portfolioRespBody AI_MODEL now data,
        some (u.setAiPortfolio ⟨data, now, AI_MODEL⟩ now), 1⟩ ∧
    aiRoadmapHandler ext (some "1") key (.ok (some cr)) now (some u) =
      ⟨200, roadmapRespBody AI_MODEL now datar,
        some (u.setAiRoadmap ⟨datar, now, AI_MODEL⟩ now), 1⟩ := by
  have hcp : aiPortfolioHandler ext none key prov now (some u) =
      ⟨200, portfolioRespBody pslot.model pslot.createdAt pslot.data, some u, 0⟩ := by
    simp [aiPortfolioHandler, qString, hp, portfolioRespBody]
  have hcr : aiRoadmapHandler ext none key prov now (some u) =
      ⟨200, roadmapRespBody rslot.model rslot.createdAt rslot.data, some u, 0⟩ := by
    simp [aiRoadmapHandler, qString, hr, roadmapRespBody]
  refine ⟨hcp, hcr, ?_, ?_, ?_, ?_, ?_⟩
  · rw [hcp]
    simp [aiPortfolioHandler, qString, hp, portfolioRespBody]
  · simp only [aiPortfolioHandler, qString_one, hpr, hps, han, hk, beq_self_eq_true, if_true]
    cases prov with
    | error m => rfl
    | ok c2 =>
      cases c2 with
      | none => rfl
      | some content =>
        cases hpc : ext.parse content with
        | none => simp [hpc]
        | some j2 =>
          cases hv : aiPortfolioValidate j2 with
          | none => simp [hpc, hv]
          | some d => simp [hpc, hv]
  · simp only [aiRoadmapHandler, qString_one, hpr, hps, han, hk, beq_self_eq_true, if_true]
    cases prov with
    | error m => rfl
    | ok c2 =>
      cases c2 with
      | none => rfl
      | some content =>
        cases hpc : ext.parse content with
        | none => simp [hpc]
        | some j2 =>
          cases hv : aiRoadmapValidate j2 with
          | none => simp [hpc, hv]
          | some d => simp [hpc, hv]
  · simp [aiPortfolioHandler, qString_one, hpr, hps, han, hk, hparse, hval, portfolioRespBody]
  · simp [aiRoadmapHandler, qString_one, hpr, hps, han, hk, hparser, hvalr, roadmapRespBody]

/-- C1 witness: the cache and refresh behaviour evaluated on a fully
populated sample user. -/
theorem C1_cache_read_and_refresh_witness :
    aiPortfolioHandler sampleExt none (some "sk") (.error "boom") 7 (some sampleUserFull) =
      ⟨200, portfolioRespBody "m-old" 100 samplePortfolio, some sampleUserFull, 0⟩ ∧
    aiRoadmapHandler sampleExt none (some "sk") (.error "boom") 7 (some sampleUserFull) =
      ⟨200, roadmapRespBody "m-old" 100 sampleRoadmap, some sampleUserFull, 0⟩ ∧
    aiPortfolioHandler sampleExt none (some "sk") (.error "boom") 8
        ((aiPortfolioHandler sampleExt none (some "sk") (.error "boom") 7
            (some sampleUserFull)).userAfter) =
      aiPortfolioHandler sampleExt none (some "sk") (.error "boom") 7 (some sampleUserFull) ∧
    (aiPortfolioHandler sampleExt (some "1") (some "sk") (.error "boom") 7
        (some sampleUserFull)).providerCalls = 1 ∧
    (aiRoadmapHandler sampleExt (some "1") (some "sk") (.error "boom") 7
        (some sampleUserFull)).providerCalls = 1 ∧
    aiPortfolioHandler sampleExt (some "1") (some "sk") (.ok (some "P")) 7
        (some sampleUserFull) =
      ⟨200, portfolioRespBody AI_MODEL 7 samplePortfolio,
        some (sampleUserFull.setAiPortfolio ⟨samplePortfolio, 7, AI_MODEL⟩ 7), 1⟩ ∧
    aiRoadmapHandler sampleExt (some "1") (some "sk") (.ok (some "R")) 7
        (some sampleUserFull) =
      ⟨200, roadmapRespBody AI_MODEL 7 sampleRoadmap,
        some (sampleUserFull.setAiRoadmap ⟨sampleRoadmap, 7, AI_MODEL⟩ 7), 1⟩ :=
  C1_cache_read_and_refresh sampleExt (some "sk") (.error "boom") 7 8 sampleUserFull
    samplePSlot sampleRSlot sampleProfile samplePsy sampleAnalysis "sk"
    "P" "R" samplePortfolio.toJson sampleRoadmap.toJson samplePortfolio sampleRoadmap
    rfl rfl rfl rfl rfl rfl rfl rfl rfl rfl

/-! ## Claim C2 -/

theorem aiPortfolio_gen_provider_called (ext : AiExternals) (refreshQ key : Option String)
    (prov : ProviderOutcome) (now : Nat) (u : UserDoc)
    (p : UserProfile) (ps : PsychometricSubmission) (an : AiAnalyzeResult) (k : String)
    (hgen : qString refreshQ = some "1" ∨ u.aiPortfolio = none)
    (hpr : u.profile = some p) (hps : u.psychometric = some ps)
    (han : u.aiAnalysis = some an) (hk : key = some k) :
    (aiPortfolioHandler ext refreshQ key prov now (some u)).providerCalls = 1 := by
  simp only [aiPortfolioHandler, beq_iff_eq, cache_skip hgen, hpr, hps, han, hk]
  cases prov with
  | error m => rfl
  | ok c2 =>
    cases c2 with
    | none => rfl
    | some content =>
      cases hpc : ext.parse content with
      | none => simp [hpc]
      | some j2 =>
        cases hv : aiPortfolioValidate j2 with
        | none => simp [hpc, hv]
        | some d => simp [hpc, hv]

theorem aiRoadmap_gen_provider_called (ext : AiExternals) (refreshQ key : Option String)
    (prov : ProviderOutcome) (now : Nat) (u : UserDoc)
    (p : UserProfile) (ps : PsychometricSubmission) (an : AiAnalyzeResult) (k : String)
    (hgen : qString refreshQ = some "1" ∨ u.aiRoadmap = none)
    (hpr : u.profile = some p) (hps : u.psychometric = some ps)
    (han : u.aiAnalysis = some an) (hk : key = some k) :
    (aiRoadmapHandler ext refreshQ key prov now (some u)).providerCalls = 1 := by
  simp only [aiRoadmapHandler, beq_iff_eq, cache_skip hgen, hpr, hps, han, hk]
  cases prov with
  | error m => rfl
  | ok c2 =>
    cases c2 with
    | none => rfl
    | some content =>
      cases hpc : ext.parse content with
      | none => simp [hpc]
      | some j2 =>
        cases hv : aiRoadmapValidate j2 with
        | none => simp [hpc, hv]
        | some d => simp [hpc, hv]

/-- C2: on a generation attempt (no usable cache or refresh requested) both
AI endpoints check the prerequisite gates in the fixed order profile,
psychometric, analysis, provider key; each failing gate short-circuits with
its own distinct error (400 profile, 400 psychometric, 400 analysis, 500
configuration) before any provider call, and the provider is called exactly
when all four gates pass. -/
theorem C2_prereq_gate_order (ext : AiExternals) (refreshQ key : Option String)
    (prov : ProviderOutcome) (now : Nat) (u : UserDoc)
    (p : UserProfile) (ps : PsychometricSubmission) (an : AiAnalyzeResult) (k : String)
    (hgenP : qString refreshQ = some "1" ∨ u.aiPortfolio = none)
    (hgenR : qString refreshQ = some "1" ∨ u.aiRoadmap = none) :
    (u.profile = none →
      aiPortfolioHandler ext refreshQ key prov now (some u) =
        ⟨400, errJson "Profile is missing. Save /user/profile first.", some u, 0⟩ ∧
      aiRoadmapHandler ext refreshQ key prov now (some u) =
        ⟨400, errJson "Profile is missing. Save /user/profile first.", some u, 0⟩) ∧
    (u.profile = some p → u.psychometric = none →
      aiPortfolioHandler ext refreshQ key prov now (some u) =
        ⟨400, errJson "Psychometric answers are missing. Save /user/psychometric first.",
          some u, 0⟩ ∧
      aiRoadmapHandler ext refreshQ key prov now (some u) =
        ⟨400, errJson "Psychometric answers are missing. Save /user/psychometric first.",
          some u, 0⟩) ∧
    (u.profile = some p → u.psychometric = some ps → u.aiAnalysis = none →
      aiPortfolioHandler ext refreshQ key prov now (some u) =
        ⟨400, errJson "AI analysis is missing. Run POST /ai/analyze first.", some u, 0⟩ ∧
      aiRoadmapHandler ext refreshQ key prov now (some u) =
        ⟨400, errJson "AI analysis is missing. Run POST /ai/analyze first.", some u, 0⟩) ∧
    (u.profile = some p → u.psychometric = some ps → u.aiAnalysis = some an →
      key = none →
      aiPortfolioHandler ext refreshQ key prov now (some u) =
        ⟨500, errJson "OpenAI API key not configured", some u, 0⟩ ∧
      aiRoadmapHandler ext refreshQ key prov now (some u) =
        ⟨500, errJson "OpenAI API key not configured", some u, 0⟩) ∧
    (u.profile = some p → u.psychometric = some ps → u.aiAnalysis = some an →
      key = some k →
      (aiPortfolioHandler ext refreshQ key prov now (some u)).providerCalls = 1 ∧
      (aiRoadmapHandler ext refreshQ key prov now (some u)).providerCalls = 1) := by
  refine ⟨?_, ?_, ?_, ?_, ?_⟩
  · intro h1
    constructor
    · simp [aiPortfolioHandler, cache_skip hgenP, h1]
    · simp [aiRoadmapHandler, cache_skip hgenR, h1]
  · intro h1 h2
    constructor
    · simp [aiPortfolioHandler, cache_skip hgenP, h1, h2]
    · simp [aiRoadmapHandler, cache_skip hgenR, h1, h2]
  · intro h1 h2 h3
    constructor
    · simp [aiPortfolioHandler, cache_skip hgenP, h1, h2, h3]
    · simp [aiRoadmapHandler, cache_skip hgenR, h1, h2, h3]
  · intro h1 h2 h3 h4
    constructor
    · simp [aiPortfolioHandler, cache_skip hgenP, h1, h2, h3, h4]
    · simp [aiRoadmapHandler, cache_skip hgenR, h1, h2, h3, h4]
  · intro h1 h2 h3 h4
    exact ⟨aiPortfolio_gen_provider_called ext refreshQ key prov now u p ps an k hgenP h1 h2 h3 h4,
           aiRoadmap_gen_provider_called ext refreshQ key prov now u p ps an k hgenR h1 h2 h3 h4⟩

/-- C2 witness: the four gates and the provider call evaluated on concrete
users missing exactly the first absent prerequisite. -/
theorem C2_prereq_gate_order_witness :
    (aiPortfolioHandler sampleExt none none (.error "x") 7 (some userBare) =
       ⟨400, errJson "Profile is missing. Save /user/profile first.", some userBare, 0⟩ ∧
     aiRoadmapHandler sampleExt none none (.error "x") 7 (some userBare) =
       ⟨400, errJson "Profile is missing. Save /user/profile first.", some userBare, 0⟩) ∧
    (aiPortfolioHandler sampleExt none none (.error "x") 7 (some userProfOnly) =
       ⟨400, errJson "Psychometric answers are missing. Save /user/psychometric first.",
         some userProfOnly, 0⟩ ∧
     aiRoadmapHandler sampleExt none none (.error "x") 7 (some userProfOnly) =
       ⟨400, errJson "Psychometric answers are missing. Save /user/psychometric first.",
         some userProfOnly, 0⟩) ∧
    (aiPortfolioHandler sampleExt none none (.error "x") 7 (some userProfPsy) =
       ⟨400, errJson "AI analysis is missing. Run POST /ai/analyze first.",
         some userProfPsy, 0⟩ ∧
     aiRoadmapHandler sampleExt none none (.error "x") 7 (some userProfPsy) =
       ⟨400, errJson "AI analysis is missing. Run POST /ai/analyze first.",
         some userProfPsy, 0⟩) ∧
    (aiPortfolioHandler sampleExt none none (.error "x") 7 (some userReady) =
       ⟨500, errJson "OpenAI API key not configured", some userReady, 0⟩ ∧
     aiRoadmapHandler sampleExt none none (.error "x") 7 (some userReady) =
       ⟨500, errJson "OpenAI API key not configured", some userReady, 0⟩) ∧
    ((aiPortfolioHandler sampleExt none (some "sk") (.error "x") 7
        (some userReady)).providerCalls = 1 ∧
     (aiRoadmapHandler sampleExt none (some "sk") (.error "x") 7
        (some userReady)).providerCalls = 1) :=
  ⟨(C2_prereq_gate_order sampleExt none none (.error "x") 7 userBare
      sampleProfile samplePsy sampleAnalysis "sk" (Or.inr rfl) (Or.inr rfl)).1 rfl,
   (C2_prereq_gate_order sampleExt none none (.error "x") 7 userProfOnly
      sampleProfile samplePsy sampleAnalysis "sk" (Or.inr rfl) (Or.inr rfl)).2.1 rfl rfl,
   (C2_prereq_gate_order sampleExt none none (.error "x") 7 userProfPsy
      sampleProfile samplePsy sampleAnalysis "sk" (Or.inr rfl) (Or.inr rfl)).2.2.1 rfl rfl rfl,
   (C2_prereq_gate_order sampleExt none none (.error "x") 7 userReady
      sampleProfile samplePsy sampleAnalysis "sk" (Or.inr rfl) (Or.inr rfl)).2.2.2.1
      rfl rfl rfl rfl,
   (C2_prereq_gate_order sampleExt none (some "sk") (.error "x") 7 userReady
      sampleProfile samplePsy sampleAnalysis "sk" (Or.inr rfl) (Or.inr rfl)).2.2.2.2
      rfl rfl rfl rfl⟩

/-! ## Claim C3 -/

/-- The element and length constraints of z.array(z.string().min(1)).min(lo).max(hi). -/
def strListWf (lo hi : Nat) (xs : List String) : Prop :=
  (∀ s ∈ xs, 1 ≤ s.length) ∧ lo ≤ xs.length ∧ xs.length ≤ hi

instance (lo hi : Nat) (xs : List String) : Decidable (strListWf lo hi xs) := by
  unfold strListWf; infer_instance

/-- The constraints aiPortfolioSchema declares. -/
def portfolioWf (p : AiPortfolio) : Prop :=
  1 ≤ p.strengthSummary.length ∧
  strListWf 3 12 p.recommendedSkills ∧
  strListWf 3 12 p.learningFocusAreas ∧
  strListWf 2 10 p.suggestedProjects

instance (p : AiPortfolio) : Decidable (portfolioWf p) := by
  unfold portfolioWf; infer_instance

/-- The constraints the stage schema inside aiRoadmapSchema declares. -/
def stageWf (s : AiRoadmapStage) : Prop :=
  1 ≤ s.stage.length ∧ strListWf 1 10 s.whatToStudy ∧ strListWf 1 10 s.skillsToLearn ∧
  strListWf 0 10 s.certifications ∧ strListWf 1 10 s.projects ∧ strListWf 0 10 s.internships

instance (s : AiRoadmapStage) : Decidable (stageWf s) := by
  unfold stageWf; infer_instance

/-- The constraints aiRoadmapSchema declares. -/
def roadmapWf (r : AiRoadmap) : Prop :=
  1 ≤ r.primaryDomain.length ∧ (∀ st ∈ r.stages, stageWf st) ∧
  3 ≤ r.stages.length ∧ r.stages.length ≤ 8 ∧ 1 ≤ r.notes.length

instance (r : AiRoadmap) : Decidable (roadmapWf r) := by
  unfold roadmapWf; infer_instance

theorem optionMapList_str (xs : List String) :
    optionMapList asNonEmptyString (xs.map Json.str) =
      if ∀ s ∈ xs, 1 ≤ s.length then some xs else none := by
  induction xs with
  | nil => simp [optionMapList]
  | cons x xs ih =>
    simp only [List.map_cons, optionMapList, ih, asNonEmptyString]
    by_cases hx : 1 ≤ x.length
    · by_cases hxs : ∀ s ∈ xs, 1 ≤ s.length
      · have hall : ∀ s ∈ x :: xs, 1 ≤ s.length := List.forall_mem_cons.mpr ⟨hx, hxs⟩
        rw [if_pos hx, if_pos hxs, if_pos hall]
      · have hall : ¬ ∀ s ∈ x :: xs, 1 ≤ s.length := by
          intro hc
          exact hxs fun s hs => hc s (List.mem_cons_of_mem _ hs)
        rw [if_pos hx, if_neg hxs, if_neg hall]
    · have hall : ¬ ∀ s ∈ x :: xs, 1 ≤ s.length := by
        intro hc
        exact hx (hc x (List.mem_cons_self x xs))
      rw [if_neg hx, if_neg hall]

theorem asStrListBounded_ofStrList (lo hi : Nat) (xs : List String) :
    asStrListBounded lo hi (Json.ofStrList xs) =
      if strListWf lo hi xs then some xs else none := by
  simp only [asStrListBounded, asStringList, Json.ofStrList, strListWf]
  rw [optionMapList_str]
  by_cases h1 : ∀ s ∈ xs, 1 ≤ s.length
  · simp only [if_pos h1, Option.some_bind]
    by_cases h2 : lo ≤ xs.length ∧ xs.length ≤ hi
    · rw [if_pos h2, if_pos ⟨h1, h2⟩]
    · rw [if_neg h2, if_neg fun h => h2 h.2]
  · simp only [if_neg h1, Option.none_bind]
    rw [if_neg fun h => h1 h.1]

/-- aiPortfolioSchema accepts exactly the declared constraints: on the JSON
encoding of a portfolio it succeeds (with the same portfolio) iff the bounds
hold. -/
theorem aiPortfolioValidate_toJson (p : AiPortfolio) :
    aiPortfolioValidate p.toJson = if portfolioWf p then some p else none := by
  obtain ⟨ss, rs, lf, sp⟩ := p
  have h1 : (AiPortfolio.toJson ⟨ss, rs, lf, sp⟩).getField "strengthSummary" =
      some (.str ss) := rfl
  have h2 : (AiPortfolio.toJson ⟨ss, rs, lf, sp⟩).getField "recommendedSkills" =
      some (Json.ofStrList rs) := rfl
  have h3 : (AiPortfolio.toJson ⟨ss, rs, lf, sp⟩).getField "learningFocusAreas" =
      some (Json.ofStrList lf) := rfl
  have h4 : (AiPortfolio.toJson ⟨ss, rs, lf, sp⟩).getField "suggestedProjects" =
      some (Json.ofStrList sp) := rfl
  simp only [aiPortfolioValidate, h1, h2, h3, h4, Option.some_bind, asNonEmptyString,
    asStrListBounded_ofStrList]
  by_cases c1 : 1 ≤ ss.length
  · by_cases c2 : strListWf 3 12 rs
    · by_cases c3 : strListWf 3 12 lf
      · by_cases c4 : strListWf 2 10 sp
        · simp [portfolioWf, c1, c2, c3, c4]
        · simp [portfolioWf, c1, c2, c3, c4]
      · simp [portfolioWf, c1, c2, c3]
    · simp [portfolioWf, c1, c2]
  · simp [portfolioWf, c1]

theorem aiRoadmapStageValidate_toJson (s : AiRoadmapStage) :
    aiRoadmapStageValidate s.toJson = if stageWf s then some s else none := by
  obtain ⟨st, ws, sk, ce, pr, it⟩ := s
  have h1 : (AiRoadmapStage.toJson ⟨st, ws, sk, ce, pr, it⟩).getField "stage" =
      some (.str st) := rfl
  have h2 : (AiRoadmapStage.toJson ⟨st, ws, sk, ce, pr, it⟩).getField "whatToStudy" =
      some (Json.ofStrList ws) := rfl
  have h3 : (AiRoadmapStage.toJson ⟨st, ws, sk, ce, pr, it⟩).getField "skillsToLearn" =
      some (Json.ofStrList sk) := rfl
  have h4 : (AiRoadmapStage.toJson ⟨st, ws, sk, ce, pr, it⟩).getField "certifications" =
      some (Json.ofStrList ce) := rfl
  have h5 : (AiRoadmapStage.toJson ⟨st, ws, sk, ce, pr, it⟩).getField "projects" =
      some (Json.ofStrList pr) := rfl
  have h6 : (AiRoadmapStage.toJson ⟨st, ws, sk, ce, pr, it⟩).getField "internships" =
      some (Json.ofStrList it) := rfl
  simp only [aiRoadmapStageValidate, h1, h2, h3, h4, h5, h6, Option.some_bind,
    asNonEmptyString, asStrListBounded_ofStrList]
  by_cases c1 : 1 ≤ st.length
  · by_cases c2 : strListWf 1 10 ws
    · by_cases c3 : strListWf 1 10 sk
      · by_cases c4 : strListWf 0 10 ce
        · by_cases c5 : strListWf 1 10 pr
          · by_cases c6 : strListWf 0 10 it
            · simp [stageWf, c1, c2, c3, c4, c5, c6]
            · simp [stageWf, c1, c2, c3, c4, c5, c6]
          · simp [stageWf, c1, c2, c3, c4, c5]
        · simp [stageWf, c1, c2, c3, c4]
      · simp [stageWf, c1, c2, c3]
    · simp [stageWf, c1, c2]
  · simp [stageWf, c1]

theorem optionMapList_stages (sts : List AiRoadmapStage) :
    optionMapList aiRoadmapStageValidate (sts.map AiRoadmapStage.toJson) =
      if ∀ st ∈ sts, stageWf st then some sts else none := by
  induction sts with
  | nil => simp [optionMapList]
  | cons x xs ih =>
    simp only [List.map_cons, optionMapList, ih, aiRoadmapStageValidate_toJson]
    by_cases hx : stageWf x
    · by_cases hxs : ∀ st ∈ xs, stageWf st
      · have hall : ∀ st ∈ x :: xs, stageWf st := List.forall_mem_cons.mpr ⟨hx, hxs⟩
        rw [if_pos hx, if_pos hxs, if_pos hall]
      · have hall : ¬ ∀ st ∈ x :: xs, stageWf st := by
          intro hc
          exact hxs fun st hs => hc st (List.mem_cons_of_mem _ hs)
        rw [if_pos hx, if_neg hxs, if_neg hall]
    · have hall : ¬ ∀ st ∈ x :: xs, stageWf st := by
        intro hc
        exact hx (hc x (List.mem_cons_self x xs))
      rw [if_neg hx, if_neg hall]

/-- aiRoadmapSchema accepts exactly the declared constraints: on the JSON
encoding of a roadmap it succeeds (with the same roadmap) iff the bounds
hold. -/
theorem aiRoadmapValidate_toJson (r : AiRoadmap) :
    aiRoadmapValidate r.toJson = if roadmapWf r then some r else none := by
  obtain ⟨pd, sts, no⟩ := r
  have h1 : (AiRoadmap.toJson ⟨pd, sts, no⟩).getField "primaryDomain" =
      some (.str pd) := rfl
  have h2 : (AiRoadmap.toJson ⟨pd, sts, no⟩).getField "stages" =
      some (.arr (sts.map AiRoadmapStage.toJson)) := rfl
  have h3 : (AiRoadmap.toJson ⟨pd, sts, no⟩).getField "notes" =
      some (.str no) := rfl
  simp only [aiRoadmapValidate, h1, h2, h3]
  by_cases c2 : ∀ st ∈ sts, stageWf st
  · have hsts : optionMapList aiRoadmapStageValidate (sts.map AiRoadmapStage.toJson) =
        some sts := by
      rw [optionMapList_stages, if_pos c2]
    by_cases c1 : 1 ≤ pd.length
    · by_cases c3 : 3 ≤ sts.length
      · by_cases c4 : sts.length ≤ 8
        · by_cases c5 : 1 ≤ no.length
          · simp [roadmapWf, asNonEmptyString, hsts, c1, iff_true_intro c2, c3, c4, c5]
          · simp [roadmapWf, asNonEmptyString, hsts, c1, iff_true_intro c2, c3, c4, c5]
        · simp [roadmapWf, asNonEmptyString, hsts, c1, iff_true_intro c2, c3, c4]
      · simp [roadmapWf, asNonEmptyString, hsts, c1, iff_true_intro c2, c3]
    · simp [roadmapWf, asNonEmptyString, hsts, c1]
  · have hsts : optionMapList aiRoadmapStageValidate (sts.map AiRoadmapStage.toJson) =
        none := by
      rw [optionMapList_stages, if_neg c2]
    by_cases c1 : 1 ≤ pd.length
    · simp [roadmapWf, asNonEmptyString, hsts, c1, iff_false_intro c2]
    · simp [roadmapWf, asNonEmptyString, hsts, c1]

theorem aiPortfolio_calls_le_one (ext : AiExternals) (refreshQ key : Option String)
    (prov : ProviderOutcome) (now : Nat) (user : Option UserDoc) :
    (aiPortfolioHandler ext refreshQ key prov now user).providerCalls ≤ 1 := by
  unfold aiPortfolioHandler
  cases user with
  | none => simp
  | some u =>
    dsimp only
    repeat' split
    all_goals simp

theorem aiRoadmap_calls_le_one (ext : AiExternals) (refreshQ key : Option String)
    (prov : ProviderOutcome) (now : Nat) (user : Option UserDoc) :
    (aiRoadmapHandler ext refreshQ key prov now user).providerCalls ≤ 1 := by
  unfold aiRoadmapHandler
  cases user with
  | none => simp
  | some u =>
    dsimp only
    repeat' split
    all_goals simp

/-- C3: once generation is reached on either AI endpoint, provider failures
are classified in a fixed order with fixed statuses: missing credential gives
500 before any call; an empty response gives 502; non-JSON content gives 502
echoing the raw content; JSON violating the declared schema (whose exact
bounds the last two conjuncts characterize) gives 502 with validation
details; a thrown provider error gives 502 with its message; and at most one
provider call is ever made, with exactly one on each post-gate failure. -/
theorem C3_provider_failure_taxonomy (ext : AiExternals) (refreshQ : Option String)
    (prov prov2 : ProviderOutcome) (now now2 : Nat) (u : UserDoc) (user2 : Option UserDoc)
    (refreshQ2 key2 : Option String)
    (p : UserProfile) (ps : PsychometricSubmission) (an : AiAnalyzeResult)
    (k m craw cP cR : String) (jP jR : Json) (pf : AiPortfolio) (rd : AiRoadmap)
    (hgenP : qString refreshQ = some "1" ∨ u.aiPortfolio = none)
    (hgenR : qString refreshQ = some "1" ∨ u.aiRoadmap = none)
    (hpr : u.profile = some p) (hps : u.psychometric = some ps)
    (han : u.aiAnalysis = some an)
    (hraw : ext.parse craw = none)
    (hparseP : ext.parse cP = some jP) (hvP : aiPortfolioValidate jP = none)
    (hparseR : ext.parse cR = some jR) (hvR : aiRoadmapValidate jR = none) :
    aiPortfolioHandler ext refreshQ none prov now (some u) =
      ⟨500, errJson "OpenAI API key not configured", some u, 0⟩ ∧
    aiRoadmapHandler ext refreshQ none prov now (some u) =
      ⟨500, errJson "OpenAI API key not configured", some u, 0⟩ ∧
    aiPortfolioHandler ext refreshQ (some k) (.ok none) now (some u) =
      ⟨502, errJson "AI returned an empty response", some u, 1⟩ ∧
    aiRoadmapHandler ext refreshQ (some k) (.ok none) now (some u) =
      ⟨502, errJson "AI returned an empty response", some u, 1⟩ ∧
    aiPortfolioHandler ext refreshQ (some k) (.ok (some craw)) now (some u) =
      ⟨502, .obj [("error", .str "AI returned non-JSON output"), ("raw", .str craw)],
        some u, 1⟩ ∧
    aiRoadmapHandler ext refreshQ (some k) (.ok (some craw)) now (some u) =
      ⟨502, .obj [("error", .str "AI returned non-JSON output"), ("raw", .str craw)],
        some u, 1⟩ ∧
    aiPortfolioHandler ext refreshQ (some k) (.ok (some cP)) now (some u) =
      ⟨502, .obj [("error", .str "AI output did not match expected schema"),
        ("details", ext.flatten jP)], some u, 1⟩ ∧
    aiRoadmapHandler ext refreshQ (some k) (.ok (some cR)) now (some u) =
      ⟨502, .obj [("error", .str "AI output did not match expected schema"),
        ("details", ext.flatten jR)], some u, 1⟩ ∧
    aiPortfolioHandler ext refreshQ (some k) (.error m) now (some u) =
      ⟨502, errJson m, some u, 1⟩ ∧
    aiRoadmapHandler ext refreshQ (some k) (.error m) now (some u) =
      ⟨502, errJson m, some u, 1⟩ ∧
    (aiPortfolioHandler ext refreshQ2 key2 prov2 now2 user2).providerCalls ≤ 1 ∧
    (aiRoadmapHandler ext refreshQ2 key2 prov2 now2 user2).providerCalls ≤ 1 ∧
    aiPortfolioValidate pf.toJson = (if portfolioWf pf then some pf else none) ∧
    aiRoadmapValidate rd.toJson = (if roadmapWf rd then some rd else none) := by
  refine ⟨?_, ?_, ?_, ?_, ?_, ?_, ?_, ?_, ?_, ?_,
    aiPortfolio_calls_le_one ext refreshQ2 key2 prov2 now2 user2,
    aiRoadmap_calls_le_one ext refreshQ2 key2 prov2 now2 user2,
    aiPortfolioValidate_toJson pf, aiRoadmapValidate_toJson rd⟩
  · simp [aiPortfolioHandler, cache_skip hgenP, hpr, hps, han]
  · simp [aiRoadmapHandler, cache_skip hgenR, hpr, hps, han]
  · simp [aiPortfolioHandler, cache_skip hgenP, hpr, hps, han]
  · simp [aiRoadmapHandler, cache_skip hgenR, hpr, hps, han]
  · simp [aiPortfolioHandler, cache_skip hgenP, hpr, hps, han, hraw]
  · simp [aiRoadmapHandler, cache_skip hgenR, hpr, hps, han, hraw]
  · simp [aiPortfolioHandler, cache_skip hgenP, hpr, hps, han, hparseP, hvP]
  · simp [aiRoadmapHandler, cache_skip hgenR, hpr, hps, han, hparseR, hvR]
  · simp [aiPortfolioHandler, cache_skip hgenP, hpr, hps, han]
  · simp [aiRoadmapHandler, cache_skip hgenR, hpr, hps, han]

/-- Provider stub for the C3 witness: "BAD" does not parse, anything else
parses to an empty JSON object, which fails both schemas. -/
def sampleExtC3 : AiExternals :=
  ⟨fun s => if s = "BAD" then none else some (Json.obj []), fun _ => Json.null⟩

/-- C3 witness: the failure taxonomy evaluated on a user with all
prerequisites and no cached slots. -/
theorem C3_provider_failure_taxonomy_witness :
    aiPortfolioHandler sampleExtC3 none none (.error "boom") 7 (some userReady) =
      ⟨500, errJson "OpenAI API key not configured", some userReady, 0⟩ ∧
    aiRoadmapHandler sampleExtC3 none none (.error "boom") 7 (some userReady) =
      ⟨500, errJson "OpenAI API key not configured", some userReady, 0⟩ ∧
    aiPortfolioHandler sampleExtC3 none (some "sk") (.ok none) 7 (some userReady) =
      ⟨502, errJson "AI returned an empty response", some userReady, 1⟩ ∧
    aiRoadmapHandler sampleExtC3 none (some "sk") (.ok none) 7 (some userReady) =
      ⟨502, errJson "AI returned an empty response", some userReady, 1⟩ ∧
    aiPortfolioHandler sampleExtC3 none (some "sk") (.ok (some "BAD")) 7 (some userReady) =
      ⟨502, .obj [("error", .str "AI returned non-JSON output"), ("raw", .str "BAD")],
        some userReady, 1⟩ ∧
    aiRoadmapHandler sampleExtC3 none (some "sk") (.ok (some "BAD")) 7 (some userReady) =
      ⟨502, .obj [("error", .str "AI returned non-JSON output"), ("raw", .str "BAD")],
        some userReady, 1⟩ ∧
    aiPortfolioHandler sampleExtC3 none (some "sk") (.ok (some "PJ")) 7 (some userReady) =
      ⟨502, .obj [("error", .str "AI output did not match expected schema"),
        ("details", Json.null)], some userReady, 1⟩ ∧
    aiRoadmapHandler sampleExtC3 none (some "sk") (.ok (some "RJ")) 7 (some userReady) =
      ⟨502, .obj [("error", .str "AI output did not match expected schema"),
        ("details", Json.null)], some userReady, 1⟩ ∧
    aiPortfolioHandler sampleExtC3 none (some "sk") (.error "boom") 7 (some userReady) =
      ⟨502, errJson "boom", some userReady, 1⟩ ∧
    aiRoadmapHandler sampleExtC3 none (some "sk") (.error "boom") 7 (some userReady) =
      ⟨502, errJson "boom", some userReady, 1⟩ ∧
    (aiPortfolioHandler sampleExtC3 none none (.error "boom") 7
        (some userBare)).providerCalls ≤ 1 ∧
    (aiRoadmapHandler sampleExtC3 none none (.error "boom") 7
        (some userBare)).providerCalls ≤ 1 ∧
    aiPortfolioValidate samplePortfolio.toJson =
      (if portfolioWf samplePortfolio then some samplePortfolio else none) ∧
    aiRoadmapValidate sampleRoadmap.toJson =
      (if roadmapWf sampleRoadmap then some sampleRoadmap else none) :=
  C3_provider_failure_taxonomy sampleExtC3 none (.error "boom") (.error "boom") 7 7
    userReady (some userBare) none none sampleProfile samplePsy sampleAnalysis
    "sk" "boom" "BAD" "PJ" "RJ" (Json.obj []) (Json.obj []) samplePortfolio sampleRoadmap
    (Or.inr rfl) (Or.inr rfl) rfl rfl rfl rfl rfl rfl rfl rfl

/-! ## Claim C4 -/

theorem setAiPortfolio_aiPortfolio (u : UserDoc) (slot : AiSlot AiPortfolio) (now : Nat) :
    (u.setAiPortfolio slot now).aiPortfolio = some slot := by
  simp [UserDoc.setAiPortfolio, UserDoc.aiPortfolio]

theorem setAiRoadmap_aiRoadmap (u : UserDoc) (slot : AiSlot AiRoadmap) (now : Nat) :
    (u.setAiRoadmap slot now).aiRoadmap = some slot := by
  simp [UserDoc.setAiRoadmap, UserDoc.aiRoadmap]

/-- C4: the AI bundle slot is written only by a fully successful generation.
Every response that is not a 200, and every response produced without a
provider call, leaves the user document unchanged; a successful generation
persists the validated data with its timestamp and model id into the slot,
and a subsequent non-refresh read returns exactly that cached value. -/
theorem C4_write_only_on_success (ext ext2 : AiExternals)
    (refreshQ key key2 : Option String) (prov prov2 : ProviderOutcome)
    (now now3 : Nat) (user : Option UserDoc) (u : UserDoc)
    (p : UserProfile) (ps : PsychometricSubmission) (an : AiAnalyzeResult)
    (k c cr : String) (j jr : Json) (data : AiPortfolio) (datar : AiRoadmap)
    (hgenP : qString refreshQ = some "1" ∨ u.aiPortfolio = none)
    (hgenR : qString refreshQ = some "1" ∨ u.aiRoadmap = none)
    (hpr : u.profile = some p) (hps : u.psychometric = some ps)
    (han : u.aiAnalysis = some an) (hk : key = some k)
    (hparse : ext.parse c = some j) (hval : aiPortfolioValidate j = some data)
    (hparser : ext.parse cr = some jr) (hvalr : aiRoadmapValidate jr = some datar) :
    ((aiPortfolioHandler ext refreshQ key prov now user).status ≠ 200 →
      (aiPortfolioHandler ext refreshQ key prov now user).userAfter = user) ∧
    ((aiRoadmapHandler ext refreshQ key prov now user).status ≠ 200 →
      (aiRoadmapHandler ext refreshQ key prov now user).userAfter = user) ∧
    ((aiPortfolioHandler ext refreshQ key prov now user).providerCalls = 0 →
      (aiPortfolioHandler ext refreshQ key prov now user).userAfter = user) ∧
    ((aiRoadmapHandler ext refreshQ key prov now user).providerCalls = 0 →
      (aiRoadmapHandler ext refreshQ key prov now user).userAfter = user) ∧
    aiPortfolioHandler ext refreshQ key (.ok (some c)) now (some u) =
      ⟨200, portfolioRespBody AI_MODEL now data,
        some (u.setAiPortfolio ⟨data, now, AI_MODEL⟩ now), 1⟩ ∧
    aiPortfolioHandler ext2 none key2 prov2 now3
        (some (u.setAiPortfolio ⟨data, now, AI_MODEL⟩ now)) =
      ⟨200, portfolioRespBody AI_MODEL now data,
        some (u.setAiPortfolio ⟨data, now, AI_MODEL⟩ now), 0⟩ ∧
    aiRoadmapHandler ext refreshQ key (.ok (some cr)) now (some u) =
      ⟨200, roadmapRespBody AI_MODEL now datar,
        some (u.setAiRoadmap ⟨datar, now, AI_MODEL⟩ now), 1⟩ ∧
    aiRoadmapHandler ext2 none key2 prov2 now3
        (some (u.setAiRoadmap ⟨datar, now, AI_MODEL⟩ now)) =
      ⟨200, roadmapRespBody AI_MODEL now datar,
        some (u.setAiRoadmap ⟨datar, now, AI_MODEL⟩ now), 0⟩ := by
  refine ⟨?_, ?_, ?_, ?_, ?_, ?_, ?_, ?_⟩
  · intro h
    unfold aiPortfolioHandler at *
    cases user with
    | none => rfl
    | some u2 =>
      dsimp only at h ⊢
      repeat' split
      all_goals first | rfl | (exfalso; simp_all)
  · intro h
    unfold aiRoadmapHandler at *
    cases user with
    | none => rfl
    | some u2 =>
      dsimp only at h ⊢
      repeat' split
      all_goals first | rfl | (exfalso; simp_all)
  · intro h
    unfold aiPortfolioHandler at *
    cases user with
    | none => rfl
    | some u2 =>
      dsimp only at h ⊢
      repeat' split
      all_goals first | rfl | (exfalso; simp_all)
  · intro h
    unfold aiRoadmapHandler at *
    cases user with
    | none => rfl
    | some u2 =>
      dsimp only at h ⊢
      repeat' split
      all_goals first | rfl | (exfalso; simp_all)
  · simp [aiPortfolioHandler, cache_skip hgenP, hpr, hps, han, hk, hparse, hval,
      portfolioRespBody]
  · simp [aiPortfolioHandler, qString, setAiPortfolio_aiPortfolio, portfolioRespBody]
  · simp [aiRoadmapHandler, cache_skip hgenR, hpr, hps, han, hk, hparser, hvalr,
      roadmapRespBody]
  · simp [aiRoadmapHandler, qString, setAiRoadmap_aiRoadmap, roadmapRespBody]

/-- C4 witness: a failing request (no key) leaves the sample user unchanged
and a successful generation writes the slot that the next read returns. -/
theorem C4_write_only_on_success_witness :
    ((aiPortfolioHandler sampleExt none none (.error "x") 7 (some userReady)).userAfter =
      some userReady) ∧
    ((aiRoadmapHandler sampleExt none none (.error "x") 7 (some userReady)).userAfter =
      some userReady) ∧
    aiPortfolioHandler sampleExt none (some "sk") (.ok (some "P")) 7 (some userReady) =
      ⟨200, portfolioRespBody AI_MODEL 7 samplePortfolio,
        some (userReady.setAiPortfolio ⟨samplePortfolio, 7, AI_MODEL⟩ 7), 1⟩ ∧
    aiPortfolioHandler sampleExt none (some "sk") (.error "x") 9
        (some (userReady.setAiPortfolio ⟨samplePortfolio, 7, AI_MODEL⟩ 7)) =
      ⟨200, portfolioRespBody AI_MODEL 7 samplePortfolio,
        some (userReady.setAiPortfolio ⟨samplePortfolio, 7, AI_MODEL⟩ 7), 0⟩ ∧
    aiRoadmapHandler sampleExt none (some "sk") (.ok (some "R")) 7 (some userReady) =
      ⟨200, roadmapRespBody AI_MODEL 7 sampleRoadmap,
        some (userReady.setAiRoadmap ⟨sampleRoadmap, 7, AI_MODEL⟩ 7), 1⟩ ∧
    aiRoadmapHandler sampleExt none (some "sk") (.error "x") 9
        (some (userReady.setAiRoadmap ⟨sampleRoadmap, 7, AI_MODEL⟩ 7)) =
      ⟨200, roadmapRespBody AI_MODEL 7 sampleRoadmap,
        some (userReady.setAiRoadmap ⟨sampleRoadmap, 7, AI_MODEL⟩ 7), 0⟩ := by
  have h := C4_write_only_on_success sampleExt sampleExt none (some "sk") (some "sk")
    (.error "x") (.error "x") 7 9 (some userReady) userReady
    sampleProfile samplePsy sampleAnalysis "sk" "P" "R"
    samplePortfolio.toJson sampleRoadmap.toJson samplePortfolio sampleRoadmap
    (Or.inr rfl) (Or.inr rfl) rfl rfl rfl rfl rfl rfl rfl rfl
  exact ⟨h.1 (by decide), h.2.1 (by decide), h.2.2.2.2.1, h.2.2.2.2.2.1,
    h.2.2.2.2.2.2.1, h.2.2.2.2.2.2.2⟩

/-! ## Claim C5 -/

/-- C5: signup with a valid body lower-cases the email before storage and
before the uniqueness comparison and persists only the bcrypt hash of the
password; a first signup for a fresh (case-insensitive) email succeeds with
201 and appends exactly the normalized document, any later signup with any
casing of that email fails with the 409 duplicate-email error and leaves the
store unchanged, and the whole outcome depends on the password only through
its hash. -/
theorem C5_signup_normalization_and_uniqueness (ext : AuthExternals)
    (e1 e2 pw pw2 pw' : String) (newId newId2 : String) (now now2 : Nat)
    (store : List UserDoc)
    (hfresh : store.any (fun v => v.email == strToLower e1) = false)
    (hsame : strToLower e2 = strToLower e1)
    (hhash : ext.hash pw = ext.hash pw') :
    signupHandler ext (some (e1, pw)) newId now store =
      ⟨201, .obj [("token", .str (ext.sign newId (strToLower e1))),
            ("user", .obj [("id", .str newId), ("email", .str (strToLower e1))])],
        store ++ [⟨newId, strToLower e1, ext.hash pw, now, now, none, none, none⟩]⟩ ∧
    signupHandler ext (some (e2, pw2)) newId2 now2
        (store ++ [⟨newId, strToLower e1, ext.hash pw, now, now, none, none, none⟩]) =
      ⟨409, errJson "Email already exists",
        store ++ [⟨newId, strToLower e1, ext.hash pw, now, now, none, none, none⟩]⟩ ∧
    signupHandler ext (some (e1, pw)) newId now store =
      signupHandler ext (some (e1, pw')) newId now store := by
  refine ⟨?_, ?_, ?_⟩
  · simp [signupHandler, insertUser, hfresh]
  · simp [signupHandler, insertUser, List.any_append, hsame]
  · simp [signupHandler, hhash]

/-- Auth stub for the witnesses: a constant hash, identity-style signing,
and a verifier that always rejects. -/
def sampleAuth : AuthExternals :=
  ⟨fun _ => "HASH", fun i e => String.append i e, fun _ _ => false, Json.null⟩

/-- C5 witness: signing up A@X.com on an empty store succeeds and stores the
lower-cased email; re-signing up a@X.COM is rejected with 409. -/
theorem C5_signup_normalization_and_uniqueness_witness :
    signupHandler sampleAuth (some ("A@X.com", "secret1")) "id1" 3 [] =
      ⟨201, .obj [("token", .str (sampleAuth.sign "id1" (strToLower "A@X.com"))),
            ("user", .obj [("id", .str "id1"), ("email", .str (strToLower "A@X.com"))])],
        [] ++ [⟨"id1", strToLower "A@X.com", sampleAuth.hash "secret1", 3, 3,
          none, none, none⟩]⟩ ∧
    signupHandler sampleAuth (some ("a@X.COM", "secret2")) "id2" 4
        ([] ++ [⟨"id1", strToLower "A@X.com", sampleAuth.hash "secret1", 3, 3,
          none, none, none⟩]) =
      ⟨409, errJson "Email already exists",
        [] ++ [⟨"id1", strToLower "A@X.com", sampleAuth.hash "secret1", 3, 3,
          none, none, none⟩]⟩ ∧
    signupHandler sampleAuth (some ("A@X.com", "secret1")) "id1" 3 [] =
      signupHandler sampleAuth (some ("A@X.com", "other9")) "id1" 3 [] :=
  C5_signup_normalization_and_uniqueness sampleAuth "A@X.com" "a@X.COM"
    "secret1" "secret2" "other9" "id1" "id2" 3 4 [] rfl (by decide) rfl

/-! ## Claim C6 -/

/-- C6: for a valid login body, an unknown (normalized) email and a known
email with a rejected password produce exactly the same observable result:
status 401 with the generic invalid-credentials body, so the response leaks
no account existence. -/
theorem C6_login_no_account_leak (ext : AuthExternals) (e pw : String)
    (store1 store2 : List UserDoc) (u : UserDoc)
    (h1 : store1.find? (fun v => v.email == strToLower e) = none)
    (h2 : store2.find? (fun v => v.email == strToLower e) = some u)
    (h3 : ext.verify pw u.passwordHash = false) :
    loginHandler ext (some (e, pw)) store1 = (401, errJson "Invalid email or password") ∧
    loginHandler ext (some (e, pw)) store2 = (401, errJson "Invalid email or password") ∧
    loginHandler ext (some (e, pw)) store1 = loginHandler ext (some (e, pw)) store2 := by
  have ha : loginHandler ext (some (e, pw)) store1 =
      (401, errJson "Invalid email or password") := by
    simp [loginHandler, h1]
  have hb : loginHandler ext (some (e, pw)) store2 =
      (401, errJson "Invalid email or password") := by
    simp [loginHandler, h2, h3]
  exact ⟨ha, hb, ha.trans hb.symm⟩

/-- C6 witness: logging in against an empty store and against a store whose
only user rejects the password give identical 401 responses. -/
theorem C6_login_no_account_leak_witness :
    loginHandler sampleAuth (some ("b@x.com", "secret1")) [] =
      (401, errJson "Invalid email or password") ∧
    loginHandler sampleAuth (some ("b@x.com", "secret1")) [userBare] =
      (401, errJson "Invalid email or password") ∧
    loginHandler sampleAuth (some ("b@x.com", "secret1")) [] =
      loginHandler sampleAuth (some ("b@x.com", "secret1")) [userBare] :=
  C6_login_no_account_leak sampleAuth "b@x.com" "secret1" [] [userBare] userBare
    rfl (by decide) rfl

/-! ## Claim C7 -/

/-- C7: an authenticated psychometric save succeeds (storing the submission
wholesale with its timestamp and answering ok) iff the answers map has 8 to
10 entries, all values non-empty; otherwise it fails with 400 and the stored
user document is unchanged — in particular for 7 or 11 entries. -/
theorem C7_psychometric_cardinality (d : Json) (answers : List (String × String))
    (now : Nat) (u : UserDoc) :
    ((psychometricHandler d answers now (some u)).status = 200 ↔
      psychometricValid answers) ∧
    (psychometricValid answers →
      psychometricHandler d answers now (some u) =
        ⟨200, .obj [("ok", .bool true)],
          some { u with psychometric := some ⟨answers, now⟩, updatedAt := now }, 0⟩) ∧
    (¬ psychometricValid answers →
      psychometricHandler d answers now (some u) =
        ⟨400, .obj [("error", .str "Invalid input"), ("details", d)], some u, 0⟩) ∧
    (answers.length = 7 ∨ answers.length = 11 →
      psychometricHandler d answers now (some u) =
        ⟨400, .obj [("error", .str "Invalid input"), ("details", d)], some u, 0⟩) := by
  have hpos : psychometricValid answers →
      psychometricHandler d answers now (some u) =
        ⟨200, .obj [("ok", .bool true)],
          some { u with psychometric := some ⟨answers, now⟩, updatedAt := now }, 0⟩ := by
    intro h
    simp [psychometricHandler, h]
  have hneg : ¬ psychometricValid answers →
      psychometricHandler d answers now (some u) =
        ⟨400, .obj [("error", .str "Invalid input"), ("details", d)], some u, 0⟩ := by
    intro h
    simp [psychometricHandler, h]
  refine ⟨?_, hpos, hneg, ?_⟩
  · constructor
    · intro hs
      by_cases h : psychometricValid answers
      · exact h
      · rw [hneg h] at hs
        simp at hs
    · intro h
      rw [hpos h]
  · intro hlen
    apply hneg
    intro hv
    obtain ⟨-, h8, h10⟩ := hv
    rcases hlen with h7 | h11
    · omega
    · omega

/-- A 7-entry answers map, for the invalid-cardinality part of the C7
witness. -/
def sampleAnswers7 : List (String × String) :=
  [("q1", "a"), ("q2", "b"), ("q3", "c"), ("q4", "d"),
   ("q5", "a"), ("q6", "b"), ("q7", "c")]

/-- C7 witness: an 8-entry submission is stored with its timestamp; a
7-entry submission is rejected with 400 and no change. -/
theorem C7_psychometric_cardinality_witness :
    psychometricHandler Json.null sampleAnswers 5 (some userProfOnly) =
      ⟨200, .obj [("ok", .bool true)],
        some { userProfOnly with
                 psychometric := some ⟨sampleAnswers, 5⟩,
                 updatedAt := 5 }, 0⟩ ∧
    psychometricHandler Json.null sampleAnswers7 5 (some userProfOnly) =
      ⟨400, .obj [("error", .str "Invalid input"), ("details", Json.null)],
        some userProfOnly, 0⟩ :=
  ⟨(C7_psychometric_cardinality Json.null sampleAnswers 5 userProfOnly).2.1 (by decide),
   (C7_psychometric_cardinality Json.null sampleAnswers7 5 userProfOnly).2.2.2
     (Or.inl (by decide))⟩

/-! ## Claim C10 -/

/-- C10: the /me response never contains the stored password hash nor the
psychometric answers: it is invariant under changing both, and exposes
exactly the id, the email, the profile (or null) and the psychometric
submission timestamp (or null). -/
theorem C10_me_hides_password_hash (u : UserDoc) (h : String)
    (a : List (String × String)) :
    meHandler (some { u with passwordHash := h }) = meHandler (some u) ∧
    meHandler (some { u with
      psychometric := u.psychometric.map fun p => ⟨a, p.submittedAt⟩ }) =
      meHandler (some u) ∧
    meHandler (some u) =
      (200, .obj [("user", .obj
        [("id", .str u.id), ("email", .str u.email),
         ("profile", (u.profile.map UserProfile.toJson).getD .null),
         ("psychometric",
           match u.psychometric with
           | some p => .obj [("submittedAt", .num p.submittedAt)]
           | none => .null)])]) := by
  refine ⟨rfl, ?_, rfl⟩
  cases hp : u.psychometric with
  | none => simp [meHandler, hp]
  | some p => simp [meHandler, hp]

/-! ## Claim C8 -/

theorem qString_some_ne_empty {v : Option String} {s : String}
    (h : qString v = some s) : s ≠ "" := by
  cases v with
  | none => simp [qString] at h
  | some s0 =>
    by_cases he : strTrim s0 = ""
    · simp [qString, he] at h
    · simp [qString, he] at h
      rw [← h]
      exact he

/-- The job-role list the handler returns: store-order filtering by the
effective domain and tag filters, capped at 30. -/
def jobRolesOut (domainQ courseQ : Option String) (u : UserDoc)
    (roles : List JobRoleDoc) : List JobRoleDoc :=
  (roles.filter (roleMatches (effDomainFilter (qString domainQ) u.aiAnalysis)
    (effCourseTags (qString courseQ) u.aiAnalysis))).take 30

/-- C8: /ai/job-roles fails with 400 iff no explicit domain, no explicit
course and no cached analysis; otherwise it returns the store-order filtered
list capped at 30, where every returned role matches the resolved domain
exactly (when one resolved) and shares a course tag with the effective set
(when non-empty); the effective domain is the explicit parameter else the
analysis primary domain, and the effective tag set is the explicit course
together with every analysis course name, empties dropped, normalized. -/
theorem C8_job_roles_filtering (domainQ courseQ : Option String) (u : UserDoc)
    (roles : List JobRoleDoc) (a : AiAnalyzeResult) (dd t : String) (r : JobRoleDoc) :
    (u.aiAnalysis = none ∧ qString domainQ = none ∧ qString courseQ = none →
      jobRolesHandler domainQ courseQ (some u) roles =
        (400, errJson "AI analysis missing. Run POST /ai/analyze or pass ?domain= / ?course=.")) ∧
    (¬ (u.aiAnalysis = none ∧ qString domainQ = none ∧ qString courseQ = none) →
      jobRolesHandler domainQ courseQ (some u) roles =
        (200, .obj [("domain",
            match (qString domainQ).orElse
              (fun _ => u.aiAnalysis.map AiAnalyzeResult.primaryDomain) with
            | some d => .str d
            | none => .null),
          ("count", .num (jobRolesOut domainQ courseQ u roles).length),
          ("jobRoles", .arr ((jobRolesOut domainQ courseQ u roles).map jobRoleToJson))])) ∧
    (r ∈ jobRolesOut domainQ courseQ u roles →
      (effDomainFilter (qString domainQ) u.aiAnalysis = some dd → r.domain = dd) ∧
      (effCourseTags (qString courseQ) u.aiAnalysis ≠ [] →
        ∃ tg ∈ r.courseTags.getD [], tg ∈ effCourseTags (qString courseQ) u.aiAnalysis)) ∧
    (jobRolesOut domainQ courseQ u roles).length ≤ 30 ∧
    (jobRolesOut domainQ courseQ u roles).Sublist roles ∧
    (qString domainQ = some dd →
      effDomainFilter (qString domainQ) u.aiAnalysis = some dd) ∧
    (qString domainQ = none → u.aiAnalysis = some a → a.primaryDomain ≠ "" →
      effDomainFilter (qString domainQ) u.aiAnalysis = some a.primaryDomain) ∧
    (u.aiAnalysis = some a →
      (t ∈ effCourseTags (qString courseQ) u.aiAnalysis ↔
        ∃ s, (qString courseQ = some s ∨ s ∈ a.recommendedCourses.map CourseRec.course) ∧
          s ≠ "" ∧ t = normalizeTag s)) := by
  refine ⟨?_, ?_, ?_, ?_, ?_, ?_, ?_, ?_⟩
  · rintro ⟨ha, hd, hc⟩
    simp [jobRolesHandler, ha, hd, hc]
  · intro hok
    simp only [jobRolesHandler, jobRolesOut]
    rw [if_neg hok]
  · intro hmem
    have hfil : r ∈ roles.filter (roleMatches (effDomainFilter (qString domainQ) u.aiAnalysis)
        (effCourseTags (qString courseQ) u.aiAnalysis)) :=
      List.mem_of_mem_take hmem
    have hmatch := (List.mem_filter.mp hfil).2
    unfold roleMatches at hmatch
    rw [Bool.and_eq_true] at hmatch
    constructor
    · intro hdf
      rw [hdf] at hmatch
      exact beq_iff_eq.mp hmatch.1
    · intro hne
      have hany : (r.courseTags.getD []).any
          (fun tg => (effCourseTags (qString courseQ) u.aiAnalysis).contains tg) = true := by
        cases htags : effCourseTags (qString courseQ) u.aiAnalysis with
        | nil => exact absurd htags hne
        | cons t0 ts =>
          rw [htags] at hmatch
          exact hmatch.2
      rw [List.any_eq_true] at hany
      obtain ⟨tg, htg, hin⟩ := hany
      exact ⟨tg, htg, List.elem_iff.mp hin⟩
  · exact List.length_take_le 30 _
  · exact (List.take_sublist _ _).trans (List.filter_sublist _)
  · intro h
    simp [effDomainFilter, h, Option.orElse, qString_some_ne_empty h]
  · intro h ha hne
    simp [effDomainFilter, h, ha, Option.orElse, hne]
  · intro ha
    cases hq : qString courseQ with
    | none =>
      simp [effCourseTags, ha, hq, List.mem_map, List.mem_filter, List.mem_append]
      aesop
    | some c =>
      simp [effCourseTags, ha, hq, List.mem_map, List.mem_filter, List.mem_append]
      constructor
      · rintro ⟨s, ⟨hs, hne⟩, ht⟩
        refine ⟨s, ?_, hne, ht.symm⟩
        rcases hs with hs | hs
        · exact Or.inl hs.symm
        · exact Or.inr hs
      · rintro ⟨s, hs, hne, ht⟩
        refine ⟨s, ⟨?_, hne⟩, ht.symm⟩
        rcases hs with hs | hs
        · exact Or.inl hs.symm
        · exact Or.inr hs

def sampleRole1 : JobRoleDoc :=
  ⟨"r1", "Mechanical Engineer", "Engineering", 300000, 900000, ["cad"], "High",
   some ["computer science", "mechanical"]⟩

def sampleRole2 : JobRoleDoc :=
  ⟨"r2", "Designer", "Design", 200000, 500000, ["figma"], "Medium", some ["design"]⟩

def sampleRoles : List JobRoleDoc := [sampleRole1, sampleRole2]

/-- C8 witness: the prerequisite failure on a bare user, and the filtered,
capped result with resolved domain and normalized tag set on a concrete
store. -/
theorem C8_job_roles_filtering_witness :
    jobRolesHandler none none (some userBare) sampleRoles =
      (400, errJson "AI analysis missing. Run POST /ai/analyze or pass ?domain= / ?course=.") ∧
    jobRolesHandler (some "Engineering") (some " Computer Science ") (some userReady)
        sampleRoles =
      (200, .obj [("domain", .str "Engineering"), ("count", .num 1),
        ("jobRoles", .arr [jobRoleToJson sampleRole1])]) ∧
    sampleRole1.domain = "Engineering" ∧
    (∃ tg ∈ sampleRole1.courseTags.getD [],
      tg ∈ effCourseTags (qString (some " Computer Science ")) userReady.aiAnalysis) ∧
    (jobRolesOut (some "Engineering") (some " Computer Science ") userReady
      sampleRoles).length ≤ 30 ∧
    (jobRolesOut (some "Engineering") (some " Computer Science ") userReady
      sampleRoles).Sublist sampleRoles ∧
    effDomainFilter (qString (some "Engineering")) userReady.aiAnalysis =
      some "Engineering" ∧
    effDomainFilter (qString none) userReady.aiAnalysis = some "Engineering" ∧
    ("computer science" ∈ effCourseTags (qString (some " Computer Science "))
        userReady.aiAnalysis ↔
      ∃ s, (qString (some " Computer Science ") = some s ∨
          s ∈ sampleAnalysis.recommendedCourses.map CourseRec.course) ∧
        s ≠ "" ∧ "computer science" = normalizeTag s) := by
  have h1 := C8_job_roles_filtering none none userBare sampleRoles sampleAnalysis
    "Engineering" "computer science" sampleRole1
  have h2 := C8_job_roles_filtering (some "Engineering") (some " Computer Science ")
    userReady sampleRoles sampleAnalysis "Engineering" "computer science" sampleRole1
  have h3 := C8_job_roles_filtering none (some " Computer Science ")
    userReady sampleRoles sampleAnalysis "Engineering" "computer science" sampleRole1
  refine ⟨h1.1 ⟨rfl, rfl, rfl⟩, h2.2.1 (by decide), (h2.2.2.1 (by decide)).1 rfl,
    (h2.2.2.1 (by decide)).2 (by decide), h2.2.2.2.1, h2.2.2.2.2.1,
    h2.2.2.2.2.2.1 rfl, h3.2.2.2.2.2.2.1 rfl rfl (by decide),
    h2.2.2.2.2.2.2.2 rfl⟩

/-! ## Claim C9 -/

/-- The scholarship list the handler returns: store-order filtering by
academic level, optional category and optional normalized course tag, capped
at 50. -/
def scholarshipsOut (courseQ categoryQ : Option String) (u : UserDoc) (lvl : String)
    (items : List ScholarshipDoc) : List ScholarshipDoc :=
  (items.filter (scholarshipMatches lvl (qString categoryQ)
    (scholarCourseFilter (effScholarCourse (qString courseQ) u.aiAnalysis)))).take 50

/-- C9: /scholarships resolves the academic level from the explicit
parameter else the Profile education level and fails with 400 when neither
exists; the effective course is the explicit parameter else the top-ranked
analysis course, else absent; every returned scholarship matches the level
exactly, the category exactly when supplied, and contains the normalized
course among its tags when a course filter resolved, with at most 50
records in store order. -/
theorem C9_scholarships_filtering (courseQ categoryQ levelQ : Option String)
    (u : UserDoc) (items : List ScholarshipDoc) (a : AiAnalyzeResult)
    (p : UserProfile) (lv c cc ct : String) (s : ScholarshipDoc) :
    (qString levelQ = none → u.profile = none →
      scholarshipsHandler courseQ categoryQ levelQ (some u) items =
        (400, errJson "Academic level missing. Save /user/profile or pass ?academicLevel=.")) ∧
    (qString levelQ = some lv → effAcademicLevel (qString levelQ) u = some lv) ∧
    (qString levelQ = none → u.profile = some p →
      effAcademicLevel (qString levelQ) u = some p.educationLevel) ∧
    (qString courseQ = some c →
      effScholarCourse (qString courseQ) u.aiAnalysis = some c) ∧
    (qString courseQ = none → u.aiAnalysis = some a →
      effScholarCourse (qString courseQ) u.aiAnalysis =
        (a.recommendedCourses.head?).map CourseRec.course) ∧
    (effAcademicLevel (qString levelQ) u = some lv → lv ≠ "" →
      scholarshipsHandler courseQ categoryQ levelQ (some u) items =
        (200, .obj [("filters", .obj
            [("course", ((effScholarCourse (qString courseQ) u.aiAnalysis).map
                Json.str).getD .null),
             ("category", ((qString categoryQ).map Json.str).getD .null),
             ("academicLevel", .str lv)]),
          ("count", .num (scholarshipsOut courseQ categoryQ u lv items).length),
          ("scholarships", .arr ((scholarshipsOut courseQ categoryQ u lv items).map
            scholarshipToJson))])) ∧
    (s ∈ scholarshipsOut courseQ categoryQ u lv items →
      s.academicLevel = lv ∧
      (qString categoryQ = some cc → s.category = some cc) ∧
      (scholarCourseFilter (effScholarCourse (qString courseQ) u.aiAnalysis) = some ct →
        ct ∈ s.courseTags)) ∧
    (scholarshipsOut courseQ categoryQ u lv items).length ≤ 50 ∧
    (scholarshipsOut courseQ categoryQ u lv items).Sublist items := by
  refine ⟨?_, ?_, ?_, ?_, ?_, ?_, ?_, ?_, ?_⟩
  · intro hl hp
    simp [scholarshipsHandler, effAcademicLevel, hl, hp, Option.orElse]
  · intro hl
    simp [effAcademicLevel, hl, Option.orElse]
  · intro hl hp
    simp [effAcademicLevel, hl, hp, Option.orElse]
  · intro hc
    simp [effScholarCourse, hc, Option.orElse]
  · intro hc ha
    simp [effScholarCourse, hc, ha, Option.orElse]
  · intro hlv hne
    simp only [scholarshipsHandler, scholarshipsOut, hlv]
    rw [if_neg hne]
  · intro hmem
    have hfil : s ∈ items.filter (scholarshipMatches lv (qString categoryQ)
        (scholarCourseFilter (effScholarCourse (qString courseQ) u.aiAnalysis))) :=
      List.mem_of_mem_take hmem
    have hmatch := (List.mem_filter.mp hfil).2
    unfold scholarshipMatches at hmatch
    rw [Bool.and_eq_true, Bool.and_eq_true] at hmatch
    refine ⟨beq_iff_eq.mp hmatch.1.1, ?_, ?_⟩
    · intro hcc
      rw [hcc] at hmatch
      exact beq_iff_eq.mp hmatch.1.2
    · intro hct
      rw [hct] at hmatch
      exact List.elem_iff.mp hmatch.2
  · exact List.length_take_le 50 _
  · exact (List.take_sublist _ _).trans (List.filter_sublist _)

def sampleSch1 : ScholarshipDoc :=
  ⟨"s1", "Merit Award", "http://a", ["computer science"], some "Merit",
   "Undergraduate", none, none, none⟩

def sampleSch2 : ScholarshipDoc :=
  ⟨"s2", "Arts Grant", "http://b", ["design"], none, "Postgraduate", none, none, none⟩

def sampleScholarships : List ScholarshipDoc := [sampleSch1, sampleSch2]

/-- C9 witness: the prerequisite failure on a bare user, the level and
course resolution rules, and the filtered, capped result on a concrete
store. -/
theorem C9_scholarships_filtering_witness :
    scholarshipsHandler none (some "Merit") none (some userBare) sampleScholarships =
      (400, errJson "Academic level missing. Save /user/profile or pass ?academicLevel=.") ∧
    effAcademicLevel (qString (some "Undergraduate")) userBare = some "Undergraduate" ∧
    effAcademicLevel (qString none) userReady = some "Undergraduate" ∧
    effScholarCourse (qString (some "CS")) userBare.aiAnalysis = some "CS" ∧
    effScholarCourse (qString none) userReady.aiAnalysis = some "Computer Science" ∧
    scholarshipsHandler none (some "Merit") none (some userReady) sampleScholarships =
      (200, .obj [("filters", .obj
          [("course", .str "Computer Science"), ("category", .str "Merit"),
           ("academicLevel", .str "Undergraduate")]),
        ("count", .num 1),
        ("scholarships", .arr [scholarshipToJson sampleSch1])]) ∧
    sampleSch1.academicLevel = "Undergraduate" ∧
    sampleSch1.category = some "Merit" ∧
    "computer science" ∈ sampleSch1.courseTags ∧
    (scholarshipsOut none (some "Merit") userReady "Undergraduate"
      sampleScholarships).length ≤ 50 ∧
    (scholarshipsOut none (some "Merit") userReady "Undergraduate"
      sampleScholarships).Sublist sampleScholarships := by
  have hA := C9_scholarships_filtering none (some "Merit") none userReady
    sampleScholarships sampleAnalysis sampleProfile "Undergraduate" "CS" "Merit"
    "computer science" sampleSch1
  have hB := C9_scholarships_filtering (some "CS") (some "Merit") (some "Undergraduate")
    userBare sampleScholarships sampleAnalysis sampleProfile "Undergraduate" "CS" "Merit"
    "computer science" sampleSch1
  have hC := C9_scholarships_filtering none (some "Merit") none userBare
    sampleScholarships sampleAnalysis sampleProfile "Undergraduate" "CS" "Merit"
    "computer science" sampleSch1
  exact ⟨hC.1 rfl rfl, hB.2.1 rfl, hA.2.2.1 rfl rfl, hB.2.2.2.1 rfl,
    hA.2.2.2.2.1 rfl rfl, hA.2.2.2.2.2.1 rfl (by decide),
    ((hA.2.2.2.2.2.2.1) (by decide)).1,
    ((hA.2.2.2.2.2.2.1) (by decide)).2.1 rfl,
    ((hA.2.2.2.2.2.2.1) (by decide)).2.2 rfl,
    hA.2.2.2.2.2.2.2.1, hA.2.2.2.2.2.2.2.2⟩
